import Mathlib

/-!
Verification of the news-tagging service (`app.py`) against its
natural-language specification.

The development shallowly embeds the Python source: strings are lists of
characters (`Str`), the process-wide tag cache (`TAGS_CACHE`) is a map from
keys to tag lists, network interaction points are abstracted as explicit
input data (a fetched document for `fetch_rss_items`, an API-call outcome
for `generate_tags_for_titles`).  Every definition is translated from the
source; definitions whose doc comment says so follow the spec's words
instead, for comparison.
-/

/-- Python strings, modelled as lists of characters (`len`, indexing and
slicing in the source are all code-point based). -/
abbrev Str := List Char

/-- Whitespace as stripped by Python's `str.strip()`, restricted to the
whitespace characters this app encounters (ASCII whitespace and the
ideographic space). -/
def pyIsSpace (c : Char) : Bool := c.isWhitespace || c = '　'

/-- Python `str.strip()`: drop leading and trailing whitespace. -/
def pyStrip (s : Str) : Str :=
  ((s.dropWhile pyIsSpace).reverse.dropWhile pyIsSpace).reverse

/-- Python `str.isdigit` on a single character, restricted to the digit
characters relevant to this app: ASCII digits, full-width digits
（`０`–`９`）, and circled numbers （`⓪`, `①`–`⑳`）. -/
def pyIsDigitChar (c : Char) : Bool :=
  decide (('0' ≤ c ∧ c ≤ '9') ∨ ('０' ≤ c ∧ c ≤ '９') ∨
          ('①' ≤ c ∧ c ≤ '⑳') ∨ c = '⓪')

/-- Python `str.isdigit()`: nonempty and every character is a digit. -/
def pyIsDigitStr (s : Str) : Bool := !s.isEmpty && s.all pyIsDigitChar

/-- Python `str.split(sep)` for a single-character separator
(`"".split(sep) == [""]`). -/
def pySplitChar (sep : Char) : Str → List Str
  | [] => [[]]
  | c :: rest =>
    let r := pySplitChar sep rest
    if c = sep then [] :: r
    else
      match r with
      | [] => [[c]]
      | cur :: rs => (c :: cur) :: rs

/-- Python `str.splitlines()`, modelled for `\n`-separated text.  (The code
filters out empty lines right after splitting, which erases the difference
in how the two treat a trailing newline.) -/
def pySplitlines (s : Str) : List Str := pySplitChar '\n' s

/-- Python truthiness of an optional string (`if not api_key` is taken for
both `None` and the empty string). -/
def pyTruthy : Option Str → Bool
  | none => false
  | some s => !s.isEmpty

/-- Python `a or b` on optional strings, as used for environment lookups. -/
def pyOr (a b : Option Str) : Option Str :=
  match a with
  | some s => if s.isEmpty then b else some s
  | none => b

/-- app.py:39-42 `get_gemini_api_key`: first configured of the two
environment variables wins (`GEMINI_API_KEY`, then `GOOGLE_API_KEY`). -/
def get_gemini_api_key (gemini_env google_env : Option Str) : Option Str :=
  pyOr gemini_env google_env

/-- The marker-stripping pattern that app.py repeats at lines 67-70 (feed
titles and summaries) and 167-169 (tag fragments):

`if len(t) > 2 and t[0].isdigit() and t[1] in ('.', ' '):`
`    t = t[t.find(t[1]) + 1:].strip()` -/
def strip_leading_number (s : Str) : Str :=
  if 2 < s.length ∧ pyIsDigitChar (s.getD 0 'x') = true ∧
     (s.getD 1 'x' = '.' ∨ s.getD 1 'x' = ' ') then
    pyStrip (s.drop (s.findIdx (fun c => c == s.getD 1 'x') + 1))
  else s

/-- A normalized feed item as built by `fetch_rss_items` (app.py:72-80). -/
structure FeedItem where
  title : Str
  link : Str
  summary : Str
  published : Str
deriving Repr, DecidableEq

/-- A raw `item` element of the feed document: `findtext` on each child
returns the text or `None` (app.py:62-64, 78). -/
structure RawItem where
  title : Option Str := none
  link : Option Str := none
  description : Option Str := none
  pubDate : Option Str := none
deriving Repr, DecidableEq

/-- app.py:62 `(item.findtext("title") or "").strip()` followed by the
marker-strip guard of app.py:67-68. -/
def raw_title (r : RawItem) : Str := strip_leading_number (pyStrip (r.title.getD []))

/-- app.py:63 `(item.findtext("link") or "").strip()`. -/
def raw_link (r : RawItem) : Str := pyStrip (r.link.getD [])

/-- app.py:64 `(item.findtext("description") or "").strip()` followed by the
marker-strip guard of app.py:69-70. -/
def raw_summary (r : RawItem) : Str := strip_leading_number (pyStrip (r.description.getD []))

/-- app.py:78 `(item.findtext("pubDate") or "").strip()`. -/
def raw_published (r : RawItem) : Str := pyStrip (r.pubDate.getD [])

/-- What `fetch_rss_items` receives from the network and the XML parser:
`urlError` models a `URLError`/`HTTPError` raised by `urlopen` (caught at
app.py:51); `body none` models a body on which `ET.fromstring` raises
`ParseError` (app.py:55, outside any `try`); `body (some none)` a parsed
document without a `channel` child (app.py:56-59); `body (some (some raws))`
a `channel` with its `item` elements in document order. -/
inductive FetchInput where
  | urlError
  | body (doc : Option (Option (List RawItem)))
deriving Repr, DecidableEq

/-- app.py:45-81 `fetch_rss_items`.  `Except.error ()` marks an exception
propagating to the caller (the uncaught `ParseError`). -/
def fetch_rss_items (inp : FetchInput) (max_items : Nat := 20) :
    Except Unit (List FeedItem) :=
  match inp with
  | .urlError => .ok []
  | .body none => .error ()
  | .body (some none) => .ok []
  | .body (some (some raws)) =>
    .ok ((raws.take max_items).filterMap fun item =>
      if !(raw_title item).isEmpty && !(raw_link item).isEmpty then
        some ⟨raw_title item, raw_link item, raw_summary item, raw_published item⟩
      else none)

/-- The process-wide tag cache `TAGS_CACHE : dict[str, list[str]]`
(app.py:29), modelled extensionally as a map from keys to tag lists. -/
def Cache : Type := Str → Option (List Str)

/-- The cache right after `clear_tag_cache` (app.py:32-36). -/
def emptyCache : Cache := fun _ => none

/-- A single dict assignment `TAGS_CACHE[k] = v`. -/
def cacheSet (c : Cache) (k : Str) (v : List Str) : Cache :=
  fun q => if q = k then some v else c q

/-- A sequence of dict assignments, performed left to right (the shape of
every cache-writing loop in `generate_tags_for_titles`). -/
def cacheSets (c : Cache) (ws : List (Str × List Str)) : Cache :=
  ws.foldl (fun c w => cacheSet c w.1 w.2) c

/-- app.py:88 the comprehension
`[it for it in items if it["title"] and it["title"] not in TAGS_CACHE]`. -/
def uncached_items (cache : Cache) (items : List FeedItem) : List FeedItem :=
  items.filter fun it => !it.title.isEmpty && (cache it.title).isNone

/-- app.py:171-173: a fragment survives
`if t and not t.isdigit() and len(t) > 1`. -/
def is_valid_tag (t : Str) : Bool :=
  !t.isEmpty && !pyIsDigitStr t && decide (1 < t.length)

/-- app.py:160-176, processing of the text after the label: replace `、` by
`,`, split on `,`, strip each fragment, strip a residual leading number,
keep the valid fragments, truncate to 3. -/
def parse_tags_part (tags_part : Str) : List Str :=
  let raw_tags := (pySplitChar ',' (tags_part.map fun c => if c = '、' then ',' else c)).map pyStrip
  let tags := (raw_tags.map fun t => strip_leading_number (pyStrip t)).filter is_valid_tag
  tags.take 3

/-- app.py:157-176, processing of one response line:
`tags_part = line.split(":", 1)[-1].strip() if ":" in line else line.strip()`
followed by `parse_tags_part`. -/
def parse_tag_line (line : Str) : List Str :=
  let tags_part :=
    if line.contains ':' then pyStrip (line.drop (line.findIdx (fun c => c == ':') + 1))
    else pyStrip line
  parse_tags_part tags_part

/-- app.py:152 `[ln.strip() for ln in text.splitlines() if ln.strip()]`
applied to the stripped completion text (app.py:143 strips it on
extraction). -/
def response_lines (text : Str) : List Str :=
  ((pySplitlines (pyStrip text)).map pyStrip).filter fun l => !l.isEmpty

/-- Outcome of the single generation-API interaction inside
`generate_tags_for_titles`: `callError` models any exception from
`urlopen`/`json.loads` (caught by `except Exception` at app.py:134);
`badStructure` a response body on which extracting
`candidates[0].content.parts[0].text` raises one of the `KeyError`,
`IndexError`, `TypeError` caught at app.py:144; `badTextType` a response
whose `"text"` field is present but is not a string, so `.strip()` at
app.py:143 raises `AttributeError`, which the handler at app.py:144 does
NOT catch — that exception propagates past the function; `success text`
the extracted completion text. -/
inductive ApiOutcome where
  | callError
  | badStructure
  | badTextType
  | success (text : Str)
deriving Repr, DecidableEq

/-- The cache writes each branch of `generate_tags_for_titles` performs
once a generation call was issued and extraction did not raise an uncaught
exception: both caught-error handlers set every uncached title to `[]`
(app.py:137-138, 147-148); the success path pairs response line `i` with
uncached title `i`, stopping at the shorter of the two (app.py:153-155),
and stores the parsed tags (app.py:176).  The `badTextType` case is dead
code here — on that outcome the `AttributeError` fires before any write and
the caller of this list never reaches it — and is listed only to keep the
function total. -/
def annotate_writes (uncached_titles : List Str) (outcome : ApiOutcome) :
    List (Str × List Str) :=
  match outcome with
  | .callError => uncached_titles.map fun t => (t, [])
  | .badStructure => uncached_titles.map fun t => (t, [])
  | .badTextType => []
  | .success text =>
    ((response_lines text).zip uncached_titles).map fun p => (p.2, parse_tag_line p.1)

/-- app.py:84-176 `generate_tags_for_titles`.  `apiKey` is the value of
`get_gemini_api_key()`; `outcome` the result of the one `urlopen` call and
of the extraction at app.py:143.  `.ok (cache, some batch)` means the
function returned normally after issuing one generation call for `batch`
(the uncached titles); `.ok (cache, none)` that it returned without any
network call; `.error batch` that the call for `batch` was issued but the
uncaught `AttributeError` of the `badTextType` outcome propagated out of
the function at app.py:143, BEFORE any cache write — the process-wide
`TAGS_CACHE` is untouched on that path. -/
def generate_tags_for_titles (apiKey : Option Str) (outcome : ApiOutcome)
    (items : List FeedItem) (cache : Cache) :
    Except (List Str) (Cache × Option (List Str)) :=
  let uncached := uncached_items cache items
  if uncached.isEmpty then .ok (cache, none)
  else
    let uncached_titles := uncached.map FeedItem.title
    if pyTruthy apiKey = false then
      .ok (cacheSets cache (uncached_titles.map fun t => (t, [])), none)
    else if outcome = .badTextType then
      .error uncached_titles
    else
      .ok (cacheSets cache (annotate_writes uncached_titles outcome), some uncached_titles)

/-- The state of `TAGS_CACHE` when control leaves `generate_tags_for_titles`,
normally or by the uncaught exception (which fires at app.py:143 before any
write, leaving the cache as it was). -/
def annotate_cache (apiKey : Option Str) (outcome : ApiOutcome)
    (items : List FeedItem) (cache : Cache) : Cache :=
  match generate_tags_for_titles apiKey outcome items cache with
  | .ok r => r.1
  | .error _ => cache

/-- The batch of uncached titles of the generation call issued by
`generate_tags_for_titles`, if one was issued (`none` when no network call
was attempted; on the exception path the call had already gone out). -/
def annotate_batch (apiKey : Option Str) (outcome : ApiOutcome)
    (items : List FeedItem) (cache : Cache) : Option (List Str) :=
  match generate_tags_for_titles apiKey outcome items cache with
  | .ok r => r.2
  | .error b => some b

/-- One call to `generate_tags_for_titles` within a process lifetime. -/
structure AnnCall where
  apiKey : Option Str
  outcome : ApiOutcome
  items : List FeedItem
deriving Repr

/-- A process lifetime: successive calls to `generate_tags_for_titles`
threading `TAGS_CACHE` (an exception escaping one request is absorbed by
the hosting HTTP layer and the process continues with the cache as the
aborted call left it); the second component collects the batch of uncached
titles of every generation call actually issued. -/
def runAnnotate (calls : List AnnCall) (cache : Cache) : Cache × List (List Str) :=
  calls.foldl
    (fun acc call =>
      (annotate_cache call.apiKey call.outcome call.items acc.1,
       acc.2 ++ (annotate_batch call.apiKey call.outcome call.items acc.1).toList))
    (cache, [])

/-- Modelled from the claim's words (C7), for comparison with
`parse_tag_line`: strip the leading label only when it is an index — one or
more digits followed by `:` — and otherwise keep the whole line.  The code
instead discards everything before the first colon. -/
def parse_tag_line_claim (line : Str) : List Str :=
  let ds := line.takeWhile pyIsDigitChar
  let tags_part :=
    if ds ≠ [] ∧ line.getD ds.length 'x' = ':' then pyStrip (line.drop (ds.length + 1))
    else pyStrip line
  parse_tags_part tags_part

/-! ### Concrete instances used by counterexamples and witnesses -/

/-- A feed item with title `T` and link `L`. -/
def itemTL : FeedItem := ⟨"T".data, "L".data, [], []⟩

/-- A cache holding an entry under the LINK of `itemTL`, none under its title. -/
def cacheL : Cache := fun k => if k = "L".data then some ["x".data] else none

/-- A cache holding an entry under the TITLE of `itemTL`. -/
def cacheT : Cache := fun k => if k = "T".data then some ["x".data] else none

/-- A feed document of 20 items, all with usable titles and links. -/
def goodRaws : List RawItem := (List.range 20).map fun i =>
  { title := some ('T' :: Nat.toDigits 10 i), link := some ('L' :: Nat.toDigits 10 i) }

/-- A feed document of 20 items whose first item has no `link` element. -/
def cexRaws : List RawItem := { title := some "T0".data } :: goodRaws.take 19

/-! ### Helper lemmas about sequences of cache writes -/

/-- A list with a member is not empty. -/
theorem isEmpty_false_of_mem {α : Type} {l : List α} {a : α} (h : a ∈ l) :
    l.isEmpty = false := by
  cases l
  · simp at h
  · rfl

/-- An empty list is nil. -/
theorem eq_nil_of_isEmpty {α : Type} {l : List α} (h : l.isEmpty = true) :
    l = [] := by
  cases l
  · rfl
  · exact Bool.noConfusion h

theorem cacheSets_nil (c : Cache) : cacheSets c [] = c := rfl

theorem cacheSets_cons (c : Cache) (w : Str × List Str) (ws : List (Str × List Str)) :
    cacheSets c (w :: ws) = cacheSets (cacheSet c w.1 w.2) ws := rfl

/-- A key no write targets keeps its value. -/
theorem cacheSets_not_mem (c : Cache) (ws : List (Str × List Str)) (k : Str)
    (h : ∀ w ∈ ws, w.1 ≠ k) : cacheSets c ws k = c k := by
  induction ws generalizing c with
  | nil => rfl
  | cons w ws ih =>
    rw [cacheSets_cons, ih _ (fun w' hw' => h w' (List.mem_cons_of_mem _ hw'))]
    have hk : k ≠ w.1 := Ne.symm (h w (List.mem_cons_self _ _))
    simp [cacheSet, hk]

/-- A key whose value changed was the target of some write. -/
theorem cacheSets_keys_of_ne (c : Cache) (ws : List (Str × List Str)) (k : Str)
    (h : cacheSets c ws k ≠ c k) : ∃ w ∈ ws, w.1 = k := by
  by_contra hc
  push_neg at hc
  exact h (cacheSets_not_mem c ws k hc)

/-- Writes never erase an entry. -/
theorem cacheSets_isSome_of_isSome (c : Cache) (ws : List (Str × List Str)) (k : Str)
    (h : (c k).isSome = true) : ((cacheSets c ws) k).isSome = true := by
  induction ws generalizing c with
  | nil => exact h
  | cons w ws ih =>
    rw [cacheSets_cons]
    apply ih
    by_cases hk : k = w.1 <;> simp [cacheSet, hk, h]

/-- A key some write targets holds an entry afterwards. -/
theorem cacheSets_isSome_of_mem (c : Cache) (ws : List (Str × List Str)) (k : Str)
    (h : ∃ w ∈ ws, w.1 = k) : ((cacheSets c ws) k).isSome = true := by
  induction ws generalizing c with
  | nil => simp at h
  | cons w ws ih =>
    rw [cacheSets_cons]
    by_cases hw : ∃ w' ∈ ws, w'.1 = k
    · exact ih _ hw
    · obtain ⟨w', hw', hk⟩ := h
      rcases List.mem_cons.mp hw' with rfl | hmem
      · apply cacheSets_isSome_of_isSome
        simp [cacheSet, hk]
      · exact absurd ⟨w', hmem, hk⟩ hw

/-- After setting a list of keys to `[]`, each of those keys maps to `[]`. -/
theorem cacheSets_empty_writes (c : Cache) (ts : List Str) (k : Str) (h : k ∈ ts) :
    cacheSets c (ts.map fun t => (t, ([] : List Str))) k = some [] := by
  induction ts generalizing c with
  | nil => simp at h
  | cons t ts ih =>
    rw [List.map_cons, cacheSets_cons]
    by_cases hk : k ∈ ts
    · exact ih _ hk
    · rcases List.mem_cons.mp h with rfl | hmem
      · rw [cacheSets_not_mem]
        · simp [cacheSet]
        · intro w hw
          obtain ⟨t', ht', rfl⟩ := List.mem_map.mp hw
          exact fun hne => hk (hne ▸ ht')
      · exact absurd hmem hk

/-- Every write performed by `annotate_writes` targets an uncached title. -/
theorem annotate_writes_key_mem (ts : List Str) (outcome : ApiOutcome)
    (w : Str × List Str) (hw : w ∈ annotate_writes ts outcome) : w.1 ∈ ts := by
  cases outcome with
  | callError =>
    obtain ⟨t, ht, rfl⟩ := List.mem_map.mp hw
    exact ht
  | badStructure =>
    obtain ⟨t, ht, rfl⟩ := List.mem_map.mp hw
    exact ht
  | badTextType => simp [annotate_writes] at hw
  | success text =>
    obtain ⟨p, hp, rfl⟩ := List.mem_map.mp hw
    exact (List.of_mem_zip hp).2

/-- Branch reduction: no uncached items means an early return, before the
credential check and before any network interaction. -/
theorem annotate_eq_of_uncached_empty (apiKey : Option Str) (outcome : ApiOutcome)
    (items : List FeedItem) (cache : Cache)
    (hemp : (uncached_items cache items).isEmpty = true) :
    generate_tags_for_titles apiKey outcome items cache = .ok (cache, none) := by
  simp [generate_tags_for_titles, hemp]

/-- Branch reduction: uncached items but no credential — placeholder writes,
no call, normal return whatever the outcome parameter says. -/
theorem annotate_eq_of_nokey (apiKey : Option Str) (outcome : ApiOutcome)
    (items : List FeedItem) (cache : Cache)
    (hemp : (uncached_items cache items).isEmpty = false)
    (hkey : pyTruthy apiKey = false) :
    generate_tags_for_titles apiKey outcome items cache =
      .ok (cacheSets cache
        (((uncached_items cache items).map FeedItem.title).map fun t => (t, [])),
       none) := by
  simp [generate_tags_for_titles, hemp, hkey]

/-- Branch reduction: a generation call was issued and the non-string text
field makes app.py:143 raise the uncaught `AttributeError`; no write
happens. -/
theorem annotate_eq_of_badtext (apiKey : Option Str)
    (items : List FeedItem) (cache : Cache)
    (hemp : (uncached_items cache items).isEmpty = false)
    (hkey : pyTruthy apiKey = true) :
    generate_tags_for_titles apiKey .badTextType items cache =
      .error ((uncached_items cache items).map FeedItem.title) := by
  simp [generate_tags_for_titles, hemp, hkey]

/-- Branch reduction: uncached items, a credential and an outcome handled
inside the function — the call is issued and its writes are applied. -/
theorem annotate_eq_of_key (apiKey : Option Str) (outcome : ApiOutcome)
    (items : List FeedItem) (cache : Cache)
    (hemp : (uncached_items cache items).isEmpty = false)
    (hkey : pyTruthy apiKey = true)
    (hbt : outcome ≠ .badTextType) :
    generate_tags_for_titles apiKey outcome items cache =
      .ok (cacheSets cache
        (annotate_writes ((uncached_items cache items).map FeedItem.title) outcome),
       some ((uncached_items cache items).map FeedItem.title)) := by
  simp [generate_tags_for_titles, hemp, hkey, hbt]

/-- The cache left behind by `generate_tags_for_titles` — also on the
exception path — is either untouched or a sequence of writes whose keys are
all titles of uncached input items. -/
theorem annotate_cache_shape (apiKey : Option Str) (outcome : ApiOutcome)
    (items : List FeedItem) (cache : Cache) :
    annotate_cache apiKey outcome items cache = cache ∨
    ∃ ws : List (Str × List Str),
      annotate_cache apiKey outcome items cache = cacheSets cache ws ∧
      ∀ w ∈ ws, ∃ it ∈ uncached_items cache items, it.title = w.1 := by
  cases hemp : (uncached_items cache items).isEmpty with
  | true =>
    left
    simp [annotate_cache, annotate_eq_of_uncached_empty apiKey outcome items cache hemp]
  | false =>
    cases hkv : pyTruthy apiKey with
    | false =>
      right
      refine ⟨((uncached_items cache items).map FeedItem.title).map fun t => (t, []),
        ?_, ?_⟩
      · simp [annotate_cache, annotate_eq_of_nokey apiKey outcome items cache hemp hkv]
      · intro w hw
        obtain ⟨t, htm, rfl⟩ := List.mem_map.mp hw
        obtain ⟨it, hit, rfl⟩ := List.mem_map.mp htm
        exact ⟨it, hit, rfl⟩
    | true =>
      by_cases hbt : outcome = .badTextType
      · left
        subst hbt
        simp [annotate_cache, annotate_eq_of_badtext apiKey items cache hemp hkv]
      · right
        refine ⟨annotate_writes ((uncached_items cache items).map FeedItem.title) outcome,
          ?_, ?_⟩
        · simp [annotate_cache, annotate_eq_of_key apiKey outcome items cache hemp hkv hbt]
        · intro w hw
          obtain ⟨it, hit, h2⟩ := List.mem_map.mp (annotate_writes_key_mem _ _ _ hw)
          exact ⟨it, hit, h2⟩

/-- In the no-credential and caught-error outcomes, every uncached item's
title is assigned the empty tag list. -/
theorem annotate_error_writes_empty (apiKey : Option Str) (outcome : ApiOutcome)
    (items : List FeedItem) (cache : Cache)
    (hcase : pyTruthy apiKey = false ∨ outcome = .callError ∨ outcome = .badStructure)
    (it : FeedItem) (hmem : it ∈ items) (ht : it.title.isEmpty = false)
    (hun : cache it.title = none) :
    annotate_cache apiKey outcome items cache it.title = some [] := by
  have hpred : (!it.title.isEmpty && (cache it.title).isNone) = true := by
    rw [ht, hun]; rfl
  have hin : it ∈ uncached_items cache items := List.mem_filter.mpr ⟨hmem, hpred⟩
  have hemp := isEmpty_false_of_mem hin
  have htmem : it.title ∈ (uncached_items cache items).map FeedItem.title :=
    List.mem_map_of_mem _ hin
  cases hkv : pyTruthy apiKey with
  | false =>
    rw [show annotate_cache apiKey outcome items cache
        = cacheSets cache
            (((uncached_items cache items).map FeedItem.title).map fun t => (t, []))
      from by simp [annotate_cache, annotate_eq_of_nokey apiKey outcome items cache hemp hkv]]
    exact cacheSets_empty_writes _ _ _ htmem
  | true =>
    rcases hcase with hk | rfl | rfl
    · rw [hkv] at hk
      exact Bool.noConfusion hk
    · rw [show annotate_cache apiKey .callError items cache
          = cacheSets cache
              (annotate_writes ((uncached_items cache items).map FeedItem.title)
                .callError)
        from by
          simp [annotate_cache,
            annotate_eq_of_key apiKey .callError items cache hemp hkv
              (fun hcon => ApiOutcome.noConfusion hcon)]]
      exact cacheSets_empty_writes _ _ _ htmem
    · rw [show annotate_cache apiKey .badStructure items cache
          = cacheSets cache
              (annotate_writes ((uncached_items cache items).map FeedItem.title)
                .badStructure)
        from by
          simp [annotate_cache,
            annotate_eq_of_key apiKey .badStructure items cache hemp hkv
              (fun hcon => ApiOutcome.noConfusion hcon)]]
      exact cacheSets_empty_writes _ _ _ htmem

/-- In the success outcome with at least as many response lines as uncached
items, every uncached item's title receives an entry (stored at app.py:176
under the title). -/
theorem annotate_success_covers (apiKey : Option Str) (text : Str)
    (items : List FeedItem) (cache : Cache)
    (hkey : pyTruthy apiKey = true)
    (hlen : (uncached_items cache items).length ≤ (response_lines text).length)
    (it : FeedItem) (hmem : it ∈ items) (ht : it.title.isEmpty = false)
    (hun : cache it.title = none) :
    (annotate_cache apiKey (.success text) items cache it.title).isSome = true := by
  have hpred : (!it.title.isEmpty && (cache it.title).isNone) = true := by
    rw [ht, hun]; rfl
  have hin : it ∈ uncached_items cache items := List.mem_filter.mpr ⟨hmem, hpred⟩
  have hemp := isEmpty_false_of_mem hin
  have htmem : it.title ∈ (uncached_items cache items).map FeedItem.title :=
    List.mem_map_of_mem _ hin
  rw [show annotate_cache apiKey (.success text) items cache
      = cacheSets cache
          (annotate_writes ((uncached_items cache items).map FeedItem.title)
            (.success text))
    from by
      simp [annotate_cache,
        annotate_eq_of_key apiKey (.success text) items cache hemp hkey
          (fun hcon => ApiOutcome.noConfusion hcon)]]
  have hlen' : ((uncached_items cache items).map FeedItem.title).length
      ≤ (response_lines text).length := by
    rw [List.length_map]
    exact hlen
  have hsnd := List.map_snd_zip (response_lines text)
      ((uncached_items cache items).map FeedItem.title) hlen'
  rw [← hsnd] at htmem
  obtain ⟨p, hp, hp2⟩ := List.mem_map.mp htmem
  exact cacheSets_isSome_of_mem _ _ _
    ⟨(p.2, parse_tag_line p.1), List.mem_map_of_mem _ hp, hp2⟩

/-- An issued generation call's batch is exactly the uncached titles. -/
theorem annotate_batch_shape (apiKey : Option Str) (outcome : ApiOutcome)
    (items : List FeedItem) (cache : Cache) (b : List Str)
    (h : annotate_batch apiKey outcome items cache = some b) :
    b = (uncached_items cache items).map FeedItem.title := by
  cases hemp : (uncached_items cache items).isEmpty with
  | true =>
    rw [show annotate_batch apiKey outcome items cache = none from by
      simp [annotate_batch,
        annotate_eq_of_uncached_empty apiKey outcome items cache hemp]] at h
    exact Option.noConfusion h
  | false =>
    cases hkv : pyTruthy apiKey with
    | false =>
      rw [show annotate_batch apiKey outcome items cache = none from by
        simp [annotate_batch,
          annotate_eq_of_nokey apiKey outcome items cache hemp hkv]] at h
      exact Option.noConfusion h
    | true =>
      by_cases hbt : outcome = .badTextType
      · subst hbt
        rw [show annotate_batch apiKey .badTextType items cache
            = some ((uncached_items cache items).map FeedItem.title) from by
          simp [annotate_batch, annotate_eq_of_badtext apiKey items cache hemp hkv]] at h
        exact (Option.some_inj.mp h).symm
      · rw [show annotate_batch apiKey outcome items cache
            = some ((uncached_items cache items).map FeedItem.title) from by
          simp [annotate_batch,
            annotate_eq_of_key apiKey outcome items cache hemp hkv hbt]] at h
        exact (Option.some_inj.mp h).symm

/-- `parse_tags_part` never returns more than 3 tags. -/
theorem parse_tags_part_length_le (t : Str) : (parse_tags_part t).length ≤ 3 := by
  simp only [parse_tags_part]
  exact List.length_take_le _ _

/-! ### Claims -/

/-- C4, counterexample: a response that is not parseable as XML does NOT
yield an empty sequence — `ET.fromstring` sits outside the `try` block, so
the `ParseError` propagates to the caller of `fetch_rss_items`. -/
theorem fetch_parse_error_raises :
    fetch_rss_items (.body none) 20 = .error () ∧
    fetch_rss_items (.body none) 20 ≠ .ok [] :=
  ⟨rfl, by simp [fetch_rss_items]⟩

/-- C4, amended: `fetch_rss_items` returns an empty sequence on network or
HTTP failure and on a parsed document lacking a `channel` container, but a
body on which XML parsing fails raises to the caller. -/
theorem fetch_soft_fail_amended :
    (∀ m : Nat, fetch_rss_items .urlError m = .ok []) ∧
    (∀ m : Nat, fetch_rss_items (.body (some none)) m = .ok []) ∧
    fetch_rss_items (.body none) 20 = .error () :=
  ⟨fun _ => rfl, fun _ => rfl, rfl⟩

/-- C5, counterexample: the code's marker stripping leaves `①Example`
unchanged (the circled number is a digit for `isdigit`, but the next
character is not `.` or a space), while the claim says it maps to
`Example`. -/
theorem strip_marker_circled_not_stripped :
    strip_leading_number ("①Example".data) = "①Example".data ∧
    "①Example".data ≠ "Example".data := by decide

/-- C5, amended: the code removes exactly one leading digit character
(ASCII, full-width or circled) when it is followed by `.` or a space and at
least one more character, and trims the remainder; any text not of that
shape — including `①Example` and any text starting with a non-digit — is
returned unchanged; `1. Example` maps to `Example` and the empty string to
itself. -/
theorem strip_leading_number_spec :
    (∀ (d c1 : Char) (t : Str), pyIsDigitChar d = true → (c1 = '.' ∨ c1 = ' ') →
      t ≠ [] → strip_leading_number (d :: c1 :: t) = pyStrip t) ∧
    (∀ (c : Char) (t : Str), pyIsDigitChar c = false →
      strip_leading_number (c :: t) = c :: t) ∧
    strip_leading_number ("1. Example".data) = "Example".data ∧
    strip_leading_number ("①Example".data) = "①Example".data ∧
    strip_leading_number ([] : Str) = [] := by
  refine ⟨?_, ?_, by decide, by decide, by decide⟩
  · intro d c1 t hd hc1 ht
    have hne : (d == c1) = false := by
      cases h : d == c1
      · rfl
      · exfalso
        rw [beq_iff_eq] at h
        rcases hc1 with rfl | rfl <;> rw [h] at hd <;> exact absurd hd (by decide)
    have h0 : (d :: c1 :: t).getD 0 'x' = d := rfl
    have h1 : (d :: c1 :: t).getD 1 'x' = c1 := rfl
    have hlen : 2 < (d :: c1 :: t).length := by
      simp only [List.length_cons]
      have := List.length_pos.mpr ht
      omega
    have hfi : (d :: c1 :: t).findIdx (fun c => c == c1) = 1 := by
      simp [List.findIdx_cons, hne]
    rw [strip_leading_number, if_pos ⟨hlen, by rw [h0]; exact hd, by rw [h1]; exact hc1⟩,
        h1, hfi]
    rfl
  · intro c t hc
    rw [strip_leading_number, if_neg]
    rintro ⟨-, h2, -⟩
    rw [show (c :: t).getD 0 'x' = c from rfl, hc] at h2
    exact Bool.false_ne_true h2

/-- C5, witness for the amended theorem at a concrete input. -/
theorem strip_leading_number_spec_witness :
    strip_leading_number ('2' :: '.' :: "X2".data) = pyStrip "X2".data :=
  strip_leading_number_spec.1 '2' '.' "X2".data (by decide) (Or.inl rfl) (by decide)

/-- C6, counterexample: the validity filter ACCEPTS `...` (a string of
punctuation only, which the claim says is rejected) and REJECTS the
single-character `経` (which contains a non-digit character, so the claim
says it is accepted). -/
theorem is_valid_tag_punctuation_accepted :
    is_valid_tag ("...".data) = true ∧ is_valid_tag ("経".data) = false := by decide

/-- C6, amended: the filter rejects exactly the empty string, all-digit
strings, and single-character strings, and accepts every string of length
at least 2 containing a non-digit character; in particular `1` and the
empty string are rejected and `経済` accepted, but `...` is accepted and
`経` rejected. -/
theorem is_valid_tag_characterization :
    (∀ t : Str, t.length ≤ 1 → is_valid_tag t = false) ∧
    (∀ t : Str, pyIsDigitStr t = true → is_valid_tag t = false) ∧
    (∀ t : Str, 1 < t.length → (∃ c ∈ t, pyIsDigitChar c = false) →
      is_valid_tag t = true) ∧
    (is_valid_tag ("1".data) = false ∧ is_valid_tag ([] : Str) = false ∧
     is_valid_tag ("経済".data) = true ∧ is_valid_tag ("...".data) = true ∧
     is_valid_tag ("経".data) = false) := by
  refine ⟨?_, ?_, ?_, by decide⟩
  · intro t ht
    have : decide (1 < t.length) = false := decide_eq_false (by omega)
    simp [is_valid_tag, this]
  · intro t hd
    simp [is_valid_tag, hd]
  · intro t hlen hex
    obtain ⟨c, hc, hcd⟩ := hex
    have hne : t ≠ [] := by rintro rfl; simp at hc
    have hemp : t.isEmpty = false := isEmpty_false_of_mem hc
    have hall : t.all pyIsDigitChar = false := by
      cases h : t.all pyIsDigitChar
      · rfl
      · exact absurd (List.all_eq_true.mp h c hc) (by simp [hcd])
    simp [is_valid_tag, pyIsDigitStr, hemp, hall, hlen]

/-- C6, witness for the amended theorem at a concrete input. -/
theorem is_valid_tag_characterization_witness :
    is_valid_tag ("a1".data) = true :=
  is_valid_tag_characterization.2.2.1 "a1".data (by decide) ⟨'a', by decide, by decide⟩

/-- C2, counterexample: in a 20-item document whose first item has no
`link`, `fetch_rss_items(url, 10)` returns only 9 items — the code slices
to the first `max_items` item elements BEFORE filtering, so an excluded
item still counts toward the limit. -/
theorem fetch_missing_link_counts_toward_limit :
    cexRaws.length = 20 ∧
    (fetch_rss_items (.body (some (some cexRaws))) 10).toOption.map List.length
      = some 9 := by decide

/-- C2, amended: `fetch_rss_items` takes the first `max_items` item
elements in document order and only then drops those lacking a link or a
normalized title, so exclusions reduce the result below the limit; when the
first `max_items` items all have a nonempty normalized title and link, it
returns exactly those, in document order. -/
theorem fetch_take_then_filter (raws : List RawItem) (m : Nat)
    (h : ∀ r ∈ raws.take m,
      (raw_title r).isEmpty = false ∧ (raw_link r).isEmpty = false) :
    fetch_rss_items (.body (some (some raws))) m =
      .ok ((raws.take m).map fun r =>
        ⟨raw_title r, raw_link r, raw_summary r, raw_published r⟩) ∧
    ((raws.take m).map fun r =>
        (⟨raw_title r, raw_link r, raw_summary r, raw_published r⟩ : FeedItem)).length
      = min m raws.length := by
  constructor
  · have key : ∀ l : List RawItem,
        (∀ r ∈ l, (raw_title r).isEmpty = false ∧ (raw_link r).isEmpty = false) →
        (l.filterMap fun item =>
          if !(raw_title item).isEmpty && !(raw_link item).isEmpty then
            some (⟨raw_title item, raw_link item, raw_summary item,
                   raw_published item⟩ : FeedItem)
          else none)
        = l.map fun r => ⟨raw_title r, raw_link r, raw_summary r, raw_published r⟩ := by
      intro l hl
      induction l with
      | nil => rfl
      | cons r l ih =>
        have hr := hl r (List.mem_cons_self _ _)
        have hcond : (!(raw_title r).isEmpty && !(raw_link r).isEmpty) = true := by
          rw [hr.1, hr.2]; rfl
        simp only [List.filterMap_cons, hcond, if_true, List.map_cons]
        rw [ih (fun r' hr' => hl r' (List.mem_cons_of_mem _ hr'))]
    simp only [fetch_rss_items, Except.ok.injEq]
    exact key _ h
  · simp [List.length_take]

/-- C2, witness: on a 20-item document whose first 10 items all have usable
titles and links, `fetch_rss_items(url, 10)` returns exactly 10 items in
document order. -/
theorem fetch_take_then_filter_witness :
    (fetch_rss_items (.body (some (some goodRaws))) 10 =
      .ok ((goodRaws.take 10).map fun r =>
        ⟨raw_title r, raw_link r, raw_summary r, raw_published r⟩) ∧
    ((goodRaws.take 10).map fun r =>
        (⟨raw_title r, raw_link r, raw_summary r, raw_published r⟩ : FeedItem)).length
      = min 10 goodRaws.length) ∧
    min 10 goodRaws.length = 10 :=
  ⟨fetch_take_then_filter goodRaws 10 (by decide), by decide⟩

/-- C7, counterexample: on the line `重要:外交` — which carries no
`<index>:` label — the code still discards everything before the first
colon and yields `[外交]`, while parsing per the claim (strip only an index
label) yields `[重要:外交]`. -/
theorem parse_tag_line_strips_nonindex_label :
    parse_tag_line ("重要:外交".data) = ["外交".data] ∧
    parse_tag_line_claim ("重要:外交".data) = ["重要:外交".data] ∧
    ["外交".data] ≠ [("重要:外交".data : Str)] := by decide

/-- C7, amended: per paired line the code discards everything up to and
including the FIRST colon, whatever precedes it (not only an index label),
splits the rest on `,` and `、`, strips each fragment, strips a residual
leading single-digit marker, filters through the validity check, and stores
at most 3 tags. -/
theorem parse_tag_line_amended :
    (∀ line : Str, (parse_tag_line line).length ≤ 3) ∧
    (∀ pre post : Str, pre.contains ':' = false →
      parse_tag_line (pre ++ ':' :: post) = parse_tags_part (pyStrip post)) ∧
    parse_tag_line ("2: 1. 経済, x, 外交、安保, 文化".data)
      = ["経済".data, "外交".data, "安保".data] := by
  refine ⟨?_, ?_, by decide⟩
  · intro line
    unfold parse_tag_line
    exact parse_tags_part_length_le _
  · intro pre post hpre
    have hfi : ∀ (pr : Str), pr.contains ':' = false →
        (pr ++ ':' :: post).findIdx (fun c => c == ':') = pr.length := by
      intro pr
      induction pr with
      | nil => intro _; simp [List.findIdx_cons]
      | cons c pr ih =>
        intro hpr
        have hparts := Bool.or_eq_false_iff.mp ((List.contains_cons).symm.trans hpr)
        have hc : (c == ':') = false := by
          cases h : c == ':'
          · rfl
          · rw [beq_iff_eq] at h
            rw [h] at hparts
            simp at hparts
        rw [List.cons_append, List.findIdx_cons, hc, cond_false, ih hparts.2,
            List.length_cons]
    have hcont : (pre ++ ':' :: post).contains ':' = true :=
      List.elem_eq_true_of_mem (List.mem_append_right _ (List.mem_cons_self _ _))
    have hd : (pre ++ ':' :: post).drop (pre.length + 1) = post := by
      rw [show pre ++ ':' :: post = (pre ++ [':']) ++ post by simp,
          show pre.length + 1 = (pre ++ [':']).length by simp]
      exact List.drop_left _ _
    unfold parse_tag_line
    rw [if_pos hcont, hfi pre hpre, hd]

/-- C7, witness for the amended theorem at a concrete input. -/
theorem parse_tag_line_amended_witness :
    parse_tag_line ("ab".data ++ ':' :: " 経済, 外交".data)
      = parse_tags_part (pyStrip (" 経済, 外交".data)) :=
  parse_tag_line_amended.2.1 "ab".data " 経済, 外交".data (by decide)

/-- C3, counterexample: `generate_tags_for_titles` stores and deduplicates
under the item's TITLE, not its link: with a credential and a caught call
error, the item `(title T, link L)` gets its empty entry under `T`
(app.py:138) and nothing under `L`; and an item whose LINK is already
cached is still sent to generation because its title is absent. -/
theorem annotate_cache_key_is_title_not_link :
    (annotate_cache (some ("k".data)) .callError [itemTL] emptyCache ("T".data)
        = some [] ∧
     annotate_cache (some ("k".data)) .callError [itemTL] emptyCache ("L".data)
        = none) ∧
    annotate_batch (some ("k".data)) .callError [itemTL] cacheL
        = some ["T".data] := by decide

/-- C3, amended: the cache key is the item's title in every branch — (1)
the no-credential and caught-error writes (app.py:100, 138, 148) assign `[]`
under each uncached item's title; (2) the success-path store (app.py:176)
also lands under titles: with at least as many lines as uncached items
every uncached item's title holds an entry; (3) a key that is no input
item's title (in particular a link distinct from all titles) keeps its
prior value; (4) an item with an empty title is skipped: its key is neither
written nor part of any issued generation batch. -/
theorem annotate_keys_are_titles (apiKey : Option Str) (outcome : ApiOutcome)
    (items : List FeedItem) (cache : Cache) :
    (∀ it ∈ items, it.title.isEmpty = false → cache it.title = none →
      (pyTruthy apiKey = false ∨ outcome = .callError ∨ outcome = .badStructure) →
      annotate_cache apiKey outcome items cache it.title = some []) ∧
    (∀ text, outcome = .success text → pyTruthy apiKey = true →
      (uncached_items cache items).length ≤ (response_lines text).length →
      ∀ it ∈ items, it.title.isEmpty = false → cache it.title = none →
        (annotate_cache apiKey outcome items cache it.title).isSome = true) ∧
    (∀ k : Str, (∀ jt ∈ items, jt.title ≠ k) →
      annotate_cache apiKey outcome items cache k = cache k) ∧
    (∀ it ∈ items, it.title.isEmpty = true →
      annotate_cache apiKey outcome items cache it.title = cache it.title ∧
      ∀ b, annotate_batch apiKey outcome items cache = some b →
        it.title ∉ b) := by
  refine ⟨?_, ?_, ?_, ?_⟩
  · intro it hmem ht hun hcase
    exact annotate_error_writes_empty apiKey outcome items cache hcase it hmem ht hun
  · intro text hout hkey hlen it hmem ht hun
    subst hout
    exact annotate_success_covers apiKey text items cache hkey hlen it hmem ht hun
  · intro k hk
    rcases annotate_cache_shape apiKey outcome items cache with hsh | ⟨ws, hsh, hws⟩
    · rw [hsh]
    · rw [hsh]
      apply cacheSets_not_mem
      intro w hw
      obtain ⟨jt, hjt, hjw⟩ := hws w hw
      rw [← hjw]
      exact hk jt (List.mem_filter.mp hjt).1
  · intro it hmem ht
    have htnil : it.title = [] := eq_nil_of_isEmpty ht
    constructor
    · rcases annotate_cache_shape apiKey outcome items cache with hsh | ⟨ws, hsh, hws⟩
      · rw [hsh]
      · rw [hsh]
        apply cacheSets_not_mem
        intro w hw
        obtain ⟨jt, hjt, hjw⟩ := hws w hw
        have hpred := (List.mem_filter.mp hjt).2
        rw [Bool.and_eq_true] at hpred
        have hjne : jt.title.isEmpty = false := by
          have h1 := hpred.1
          cases hjt2 : jt.title.isEmpty
          · rfl
          · rw [hjt2] at h1
            exact Bool.noConfusion h1
        rw [← hjw, htnil]
        intro hcon
        rw [hcon] at hjne
        exact Bool.noConfusion hjne
    · intro b hb
      have hbeq := annotate_batch_shape apiKey outcome items cache b hb
      rw [hbeq, htnil]
      intro hcon
      obtain ⟨jt, hjt, hjw⟩ := List.mem_map.mp hcon
      have hpred := (List.mem_filter.mp hjt).2
      rw [Bool.and_eq_true] at hpred
      have h1 := hpred.1
      rw [hjw] at h1
      exact Bool.noConfusion h1

/-- C3, witness for the amended theorem at a concrete input, exercising the
generation-path store of an uncached item under its title. -/
theorem annotate_keys_are_titles_witness :
    annotate_cache (some ("k".data)) .callError [itemTL] emptyCache ("T".data)
      = some [] :=
  (annotate_keys_are_titles (some ("k".data)) .callError [itemTL] emptyCache).1
    itemTL (by decide) rfl rfl (Or.inr (Or.inl rfl))

/-- C9 (confirmed): with no credential configured, `generate_tags_for_titles`
returns normally with no generation call issued and assigns an empty tag
list to every uncached item (nonempty title absent from the cache). -/
theorem annotate_no_credential (apiKey : Option Str) (outcome : ApiOutcome)
    (items : List FeedItem) (cache : Cache) (hk : pyTruthy apiKey = false) :
    generate_tags_for_titles apiKey outcome items cache
      = .ok (annotate_cache apiKey outcome items cache, none) ∧
    ∀ it ∈ items, it.title.isEmpty = false → cache it.title = none →
      annotate_cache apiKey outcome items cache it.title = some [] := by
  constructor
  · cases hemp : (uncached_items cache items).isEmpty with
    | true =>
      have hg := annotate_eq_of_uncached_empty apiKey outcome items cache hemp
      rw [hg]
      simp [annotate_cache, hg]
    | false =>
      have hg := annotate_eq_of_nokey apiKey outcome items cache hemp hk
      rw [hg]
      simp [annotate_cache, hg]
  · intro it hmem ht hun
    exact annotate_error_writes_empty apiKey outcome items cache (Or.inl hk)
      it hmem ht hun

/-- C9, witness for the theorem at a concrete input. -/
theorem annotate_no_credential_witness :
    generate_tags_for_titles none .callError [itemTL] emptyCache
      = .ok (annotate_cache none .callError [itemTL] emptyCache, none) ∧
    annotate_cache none .callError [itemTL] emptyCache ("T".data) = some [] :=
  ⟨(annotate_no_credential none .callError [itemTL] emptyCache rfl).1,
   (annotate_no_credential none .callError [itemTL] emptyCache rfl).2 itemTL
     (by decide) rfl rfl⟩

/-- C10 (confirmed): `generate_tags_for_titles` only ever writes under keys
that are titles of uncached input items — any key whose value changed is
the title of some input item that had no entry before the call, and every
entry present before the call keeps its exact value (also on the exception
path, which writes nothing). -/
theorem annotate_frame (apiKey : Option Str) (outcome : ApiOutcome)
    (items : List FeedItem) (cache : Cache) :
    (∀ k : Str, annotate_cache apiKey outcome items cache k ≠ cache k →
      ∃ it ∈ items, it.title = k ∧ cache k = none) ∧
    (∀ k : Str, (cache k).isSome = true →
      annotate_cache apiKey outcome items cache k = cache k) := by
  have main : ∀ k : Str,
      annotate_cache apiKey outcome items cache k ≠ cache k →
      ∃ it ∈ items, it.title = k ∧ cache k = none := by
    intro k hne
    rcases annotate_cache_shape apiKey outcome items cache with hsh | ⟨ws, hsh, hws⟩
    · rw [hsh] at hne
      exact absurd rfl hne
    · rw [hsh] at hne
      obtain ⟨w, hw, hwk⟩ := cacheSets_keys_of_ne _ _ _ hne
      obtain ⟨it, hit, hti⟩ := hws w hw
      have hmem := (List.mem_filter.mp hit).1
      have hpred := (List.mem_filter.mp hit).2
      have hnone : (cache it.title).isNone = true := by
        rw [Bool.and_eq_true] at hpred
        exact hpred.2
      refine ⟨it, hmem, hti.trans hwk, ?_⟩
      rw [← hwk, ← hti]
      exact Option.isNone_iff_eq_none.mp hnone
  refine ⟨main, ?_⟩
  intro k hsome
  by_contra hne
  obtain ⟨it, _, _, hnone⟩ := main k hne
  rw [hnone] at hsome
  exact Bool.false_ne_true hsome

/-- C10, witness for the theorem at a concrete input: a pre-existing entry
(under a key unrelated to the input items) keeps its exact value. -/
theorem annotate_frame_witness :
    annotate_cache (some ("k".data)) .callError [itemTL] cacheL ("L".data)
      = cacheL ("L".data) :=
  (annotate_frame (some ("k".data)) .callError [itemTL] cacheL).2 "L".data
    (by decide)

/-- C1, counterexample, two failure modes: (a) a SUCCESSFUL generation call
was issued for the one uncached item, but the response held fewer lines
than uncached items (none at all), and the item is left with NO cache
entry; (b) a malformed response whose `"text"` field is present but not a
string makes app.py:143 raise an uncaught `AttributeError` that propagates
past `annotate` (`.error`), again leaving the item without an entry — both
contradict "every input item has a cache entry and no exception propagates,
in every outcome". -/
theorem annotate_short_success_leaves_item_uncached :
    (annotate_batch (some ("k".data)) (.success []) [itemTL] emptyCache
        = some ["T".data] ∧
     annotate_cache (some ("k".data)) (.success []) [itemTL] emptyCache ("T".data)
        = none) ∧
    (generate_tags_for_titles (some ("k".data)) .badTextType [itemTL] emptyCache
        = .error ["T".data] ∧
     annotate_cache (some ("k".data)) .badTextType [itemTL] emptyCache ("T".data)
        = none) :=
  ⟨by decide, rfl, by decide⟩

/-- C1, amended: `generate_tags_for_titles` returns normally and every
input item with a nonempty title has a cache entry afterwards — provided
the outcome was no-credential, a caught transport error, a caught
malformed-structure error, or a successful response with at least as many
lines as uncached items.  Outside those outcomes the guarantee fails: a
shorter successful response leaves the unpaired trailing uncached items
without an entry, and a response whose text field is present but not a
string raises an uncaught exception past the function with no entry
written. -/
theorem annotate_entry_coverage (apiKey : Option Str) (outcome : ApiOutcome)
    (items : List FeedItem) (cache : Cache)
    (h : pyTruthy apiKey = false ∨ outcome = .callError ∨ outcome = .badStructure ∨
         ∃ text, outcome = .success text ∧
           (uncached_items cache items).length ≤ (response_lines text).length) :
    (∃ r, generate_tags_for_titles apiKey outcome items cache = .ok r) ∧
    ∀ it ∈ items, it.title.isEmpty = false →
      (annotate_cache apiKey outcome items cache it.title).isSome = true := by
  constructor
  · cases hemp : (uncached_items cache items).isEmpty with
    | true => exact ⟨(cache, none), annotate_eq_of_uncached_empty _ _ _ _ hemp⟩
    | false =>
      cases hkv : pyTruthy apiKey with
      | false => exact ⟨_, annotate_eq_of_nokey _ _ _ _ hemp hkv⟩
      | true =>
        have hbt : outcome ≠ .badTextType := by
          rcases h with hk | rfl | rfl | ⟨text, rfl, -⟩
          · rw [hkv] at hk
            exact Bool.noConfusion hk
          · exact fun hcon => ApiOutcome.noConfusion hcon
          · exact fun hcon => ApiOutcome.noConfusion hcon
          · exact fun hcon => ApiOutcome.noConfusion hcon
        exact ⟨_, annotate_eq_of_key _ _ _ _ hemp hkv hbt⟩
  · intro it hmem ht
    by_cases hcached : (cache it.title).isSome = true
    · rcases annotate_cache_shape apiKey outcome items cache with hsh | ⟨ws, hsh, -⟩
      · rw [hsh]
        exact hcached
      · rw [hsh]
        exact cacheSets_isSome_of_isSome _ _ _ hcached
    · have hun : cache it.title = none := by
        cases hcv : cache it.title
        · rfl
        · rw [hcv] at hcached
          exact absurd rfl hcached
      rcases h with hk | rfl | rfl | ⟨text, rfl, hlen⟩
      · rw [annotate_error_writes_empty apiKey outcome items cache (Or.inl hk)
          it hmem ht hun]
        rfl
      · rw [annotate_error_writes_empty apiKey _ items cache (Or.inr (Or.inl rfl))
          it hmem ht hun]
        rfl
      · rw [annotate_error_writes_empty apiKey _ items cache (Or.inr (Or.inr rfl))
          it hmem ht hun]
        rfl
      · cases hkv : pyTruthy apiKey with
        | false =>
          rw [annotate_error_writes_empty apiKey _ items cache (Or.inl hkv)
            it hmem ht hun]
          rfl
        | true =>
          exact annotate_success_covers apiKey text items cache hkv hlen it hmem ht hun

/-- C1, witness for the amended theorem at a concrete input. -/
theorem annotate_entry_coverage_witness :
    (annotate_cache none .callError [itemTL] emptyCache ("T".data)).isSome = true :=
  (annotate_entry_coverage none .callError [itemTL] emptyCache (Or.inl rfl)).2
    itemTL (by decide) rfl

/-- C8, counterexample: a key CAN incur two generation calls in one process
lifetime — the first call succeeds with an empty completion (zero lines),
so title `T` gets no cache entry and the second `annotate` call issues a
second generation call for the same key. -/
theorem annotate_requeries_key_after_short_response :
    (runAnnotate [⟨some ("k".data), .success [], [itemTL]⟩,
                  ⟨some ("k".data), .callError, [itemTL]⟩] emptyCache).2
      = [["T".data], ["T".data]] ∧
    ¬ ((runAnnotate [⟨some ("k".data), .success [], [itemTL]⟩,
                     ⟨some ("k".data), .callError, [itemTL]⟩] emptyCache).2.countP
          (fun b => b.contains ("T".data)) ≤ 1) := by decide

/-- C8, amended: when every input item's TITLE is already present in the
cache, `generate_tags_for_titles` issues no generation call and returns the
cache unchanged; the lifetime at-most-one-call-per-key property does not
hold in general (a short successful response leaves keys uncached and they
are re-queried). -/
theorem annotate_all_cached_no_call (apiKey : Option Str) (outcome : ApiOutcome)
    (items : List FeedItem) (cache : Cache)
    (h : ∀ it ∈ items, (cache it.title).isSome = true) :
    generate_tags_for_titles apiKey outcome items cache = .ok (cache, none) := by
  have hemp : uncached_items cache items = [] := by
    rw [uncached_items, List.filter_eq_nil_iff]
    intro it hit
    intro hcontra
    rw [Bool.and_eq_true] at hcontra
    have h1 := hcontra.2
    rw [Option.isNone_iff_eq_none] at h1
    have h2 := h it hit
    rw [h1] at h2
    exact Bool.false_ne_true h2
  apply annotate_eq_of_uncached_empty
  rw [hemp]
  rfl

/-- C8, witness for the amended theorem at a concrete input. -/
theorem annotate_all_cached_no_call_witness :
    generate_tags_for_titles (some ("k".data)) .callError [itemTL] cacheT
      = .ok (cacheT, none) :=
  annotate_all_cached_no_call (some ("k".data)) .callError [itemTL] cacheT
    (by decide)
